import Mathlib

/-!
Verification model of the GPU execution-graph lifecycle manager
(tensorflow/compiler/xla/stream_executor/cuda/cuda_graph.cc) and of the
quantized-type legalization helpers
(tensorflow/compiler/mlir/tf2xla/transforms/legalize_tf_types.cc).

Modelling conventions for cuda_graph.cc:
- CUDA driver calls are modelled by their observable results: each driver
  call that can fail is an input of type `CudaError` supplied by the
  environment.
- `size_t` atomic counters are naturals reduced modulo `2 ^ 64`; the atomic
  read-modify-write operations are modelled as indivisible state updates.
- Logging statements are modelled with verbose logging enabled, so the
  expressions appearing inside log statements are evaluated for their side
  effects (this is the reading under which the counters in the source are
  updated at all).
- The per-stream capture state machine (Idle / Capturing) is owned by the
  driver, not by this file of the repository; its transitions follow the
  documented driver behaviour: begin-capture moves the stream to Capturing,
  end-capture returns it to Idle unconditionally.
- The version-conditional code is modelled following the CUDA 12 branch;
  the two branches differ only in the shape of the driver call and in one
  message string, not in control flow.
-/

/-- CUDA driver error codes, keeping the one code the source inspects by
name (`cudaErrorMemoryAllocation`) distinct from all other failures. -/
inductive CudaError where
  | success
  | errorMemoryAllocation
  | other (code : Nat)
deriving DecidableEq, Repr

/-- Model of `cudaGetErrorString`: an injective rendering of error codes. -/
def cudaGetErrorString : CudaError → String
  | CudaError.success => "no error"
  | CudaError.errorMemoryAllocation => "out of memory"
  | CudaError.other c => "unknown error " ++ toString c

/-- Model of `tsl::Status`: OK, or a classified error with a message.
`internal` models `absl::InternalError` (fatal), `resourceExhausted`
models `absl::ResourceExhaustedError` (recoverable). -/
inductive TslStatus where
  | ok
  | internal (msg : String)
  | resourceExhausted (msg : String)
deriving DecidableEq, Repr

/-- Model of `Status::ok()`. -/
def TslStatus.isOk : TslStatus → Bool
  | TslStatus.ok => true
  | _ => false

/-- Model of `Status::message()`. -/
def TslStatus.message : TslStatus → String
  | TslStatus.ok => ""
  | TslStatus.internal m => m
  | TslStatus.resourceExhausted m => m

/-- Modulus of the `size_t` counters (64-bit). -/
def sizeTMod : Nat := 2 ^ 64

/-- The two static atomic counters of `CudaGraphSupport`:
`allocated_cuda_graph_execs_` and `alive_cuda_graph_execs_`. -/
structure CudaGraphSupportState where
  allocated : Nat
  alive : Nat
deriving DecidableEq, Repr

/-- Static atomics are zero-initialized at process start. -/
def initialSupport : CudaGraphSupportState := ⟨0, 0⟩

/-- Model of `CudaGraphSupport::NotifyGraphExecCreated`: increments `alive`
then fetch-adds `allocated`, returning the pre-increment `allocated`. -/
def NotifyGraphExecCreated (s : CudaGraphSupportState) :
    Nat × CudaGraphSupportState :=
  (s.allocated, ⟨(s.allocated + 1) % sizeTMod, (s.alive + 1) % sizeTMod⟩)

/-- Model of `CudaGraphSupport::NotifyGraphExecDestroyed`: fetch-subs
`alive` and returns the old value minus one, i.e. the post-decrement
value (with `size_t` wraparound). -/
def NotifyGraphExecDestroyed (s : CudaGraphSupportState) :
    Nat × CudaGraphSupportState :=
  ((s.alive + (sizeTMod - 1)) % sizeTMod,
   ⟨s.allocated, (s.alive + (sizeTMod - 1)) % sizeTMod⟩)

/-- Model of `CudaGraphSupport::allocated_cuda_graph_execs()`. -/
def allocated_cuda_graph_execs (s : CudaGraphSupportState) : Nat :=
  s.allocated

/-- Model of `CudaGraphSupport::alive_cuda_graph_execs()`. -/
def alive_cuda_graph_execs (s : CudaGraphSupportState) : Nat :=
  s.alive

/-- Outcome of a release action guarded by `CHECK`: either the native
destroy succeeded and the destructor completes, or the process aborts with
a fatal assertion message. -/
inductive DestroyOutcome where
  | completed
  | fatalAbort (msg : String)
deriving DecidableEq, Repr

/-- Model of `CudaGraphSupport::DestroyGraph::operator()`: calls
`cudaGraphDestroy` and `CHECK`s the result. -/
def DestroyGraph (err : CudaError) : DestroyOutcome :=
  if err = CudaError.success then DestroyOutcome.completed
  else DestroyOutcome.fatalAbort
    ("Failed to destroy CUDA graph: " ++ cudaGetErrorString err)

/-- Model of `CudaGraphSupport::DestroyGraphExec::operator()`: calls
`cudaGraphExecDestroy` and `CHECK`s the result. -/
def DestroyGraphExec (err : CudaError) : DestroyOutcome :=
  if err = CudaError.success then DestroyOutcome.completed
  else DestroyOutcome.fatalAbort
    ("Failed to destroy CUDA graph instance: " ++ cudaGetErrorString err)

/-- Model of `OwnedCudaGraph`: a move-only wrapper owning a native graph
resource (represented by a numeric identifier); `none` is the empty or
moved-from state. -/
structure OwnedCudaGraph where
  graph : Option Nat
deriving DecidableEq, Repr

/-- Moving from a graph handle: the destination receives the resource, the
source is left empty. -/
def OwnedCudaGraph.moveOut (h : OwnedCudaGraph) :
    OwnedCudaGraph × OwnedCudaGraph :=
  ({ graph := h.graph }, { graph := none })

/-- Number of times the destructor of a graph handle invokes the native
graph-destroy action: a unique-ownership destructor runs its deleter
exactly when the stored resource is non-null. -/
def OwnedCudaGraph.dtorDestroyCalls (h : OwnedCudaGraph) : Nat :=
  match h.graph with
  | none => 0
  | some _ => 1

/-- Model of `OwnedCudaGraphExec`: owns a native executable resource
(`none` when moved-from) plus identity and the two per-handle counters
`num_launches_` and `num_updates_`. -/
structure OwnedCudaGraphExec where
  exec : Option Nat
  id : Nat
  numLaunches : Nat
  numUpdates : Nat
deriving DecidableEq, Repr

/-- Moving from an executable handle: the destination receives the
resource, the source is left empty. -/
def OwnedCudaGraphExec.moveOut (h : OwnedCudaGraphExec) :
    OwnedCudaGraphExec × OwnedCudaGraphExec :=
  (h, { h with exec := none })

/-- Model of `OwnedCudaGraphExec::~OwnedCudaGraphExec`: for a non-empty
handle the log statement evaluates `NotifyGraphExecDestroyed()`; for a
moved-from handle nothing runs. Returns the registry state after
destruction and the number of times `NotifyGraphExecDestroyed` was
called. -/
def OwnedCudaGraphExec.dtor (h : OwnedCudaGraphExec)
    (s : CudaGraphSupportState) : CudaGraphSupportState × Nat :=
  match h.exec with
  | none => (s, 0)
  | some _ => ((NotifyGraphExecDestroyed s).2, 1)

/-- Model of `cudaGraphExecUpdateResult`: the driver reports either
`cudaGraphExecUpdateSuccess` or some other update result. -/
inductive CudaGraphExecUpdateResult where
  | success
  | other (code : Nat)
deriving DecidableEq, Repr

/-- Model of `OwnedCudaGraphExec::Update` (CUDA 12 branch). The entry log
statement evaluates `num_updates_++`, then `num_launches_` is reset to 0;
both happen before the native `cudaGraphExecUpdate` call, whose outcome is
`err` and `updated`. -/
def OwnedCudaGraphExec.update (e : OwnedCudaGraphExec) (err : CudaError)
    (updated : CudaGraphExecUpdateResult) :
    TslStatus × OwnedCudaGraphExec :=
  let e1 := { e with numUpdates := e.numUpdates + 1 }
  let e2 := { e1 with numLaunches := 0 }
  if err ≠ CudaError.success ∨ updated ≠ CudaGraphExecUpdateResult.success
  then (TslStatus.internal
          ("failed to update cuda graph: " ++ cudaGetErrorString err), e2)
  else (TslStatus.ok, e2)

/-- Model of `OwnedCudaGraphExec::Launch`. The entry log statement
evaluates `++num_launches_`; then `cudaGraphLaunch` runs with outcome
`err`. -/
def OwnedCudaGraphExec.launch (e : OwnedCudaGraphExec) (err : CudaError) :
    TslStatus × OwnedCudaGraphExec :=
  let e1 := { e with numLaunches := e.numLaunches + 1 }
  if err ≠ CudaError.success
  then (TslStatus.internal
          ("failed to run cuda graph: " ++ cudaGetErrorString err), e1)
  else (TslStatus.ok, e1)

/-- Events observable during a `CaptureCudaGraph` call, in program order. -/
inductive CaptureEvent where
  | beginCapture
  | callbackInvoked
  | endCapture
deriving DecidableEq, Repr

/-- Per-stream capture state, owned by the driver. -/
inductive StreamCaptureStatus where
  | idle
  | capturing
deriving DecidableEq, Repr

/-- Driver and callback behaviour for one `CaptureCudaGraph` call:
`beginErr` is the result of `cudaStreamBeginCapture`, `callbackStatus` the
result of the capture callback, `endErr` the result of
`cudaStreamEndCapture`, and `capturedGraph` the graph resource that
end-capture yields. -/
structure CaptureEnv where
  beginErr : CudaError
  callbackStatus : TslStatus
  endErr : CudaError
  capturedGraph : Nat
deriving DecidableEq, Repr

/-- Model of `tsl::StatusOr<OwnedCudaGraph>`. -/
inductive StatusOrGraph where
  | ok (graph : Nat)
  | error (status : TslStatus)
deriving DecidableEq, Repr

/-- Result of a `CaptureCudaGraph` call: the returned value, the events
that ran, and the final capture state of the stream. -/
structure CaptureOutcome where
  result : StatusOrGraph
  events : List CaptureEvent
  finalStatus : StreamCaptureStatus
deriving DecidableEq, Repr

/-- Model of `CaptureCudaGraph`: begin capture (failure returns
immediately, the callback never runs); otherwise invoke the callback, then
always end capture before checking the callback result; an end-capture
failure is returned as such, and only then is a failed callback reported,
wrapped as a capture-abort internal error. The debug-dump block is a
logging-only external side effect and is not modelled. -/
def CaptureCudaGraph (env : CaptureEnv) : CaptureOutcome :=
  if env.beginErr ≠ CudaError.success then
    { result := StatusOrGraph.error (TslStatus.internal
        ("stream begin capture failed: " ++ cudaGetErrorString env.beginErr)),
      events := [CaptureEvent.beginCapture],
      finalStatus := StreamCaptureStatus.idle }
  else if env.endErr ≠ CudaError.success then
    { result := StatusOrGraph.error (TslStatus.internal
        ("stream end capture failed: " ++ cudaGetErrorString env.endErr)),
      events := [CaptureEvent.beginCapture, CaptureEvent.callbackInvoked,
                 CaptureEvent.endCapture],
      finalStatus := StreamCaptureStatus.idle }
  else if env.callbackStatus.isOk = false then
    { result := StatusOrGraph.error (TslStatus.internal
        ("failed to capture CUDA graph: " ++ env.callbackStatus.message)),
      events := [CaptureEvent.beginCapture, CaptureEvent.callbackInvoked,
                 CaptureEvent.endCapture],
      finalStatus := StreamCaptureStatus.idle }
  else
    { result := StatusOrGraph.ok env.capturedGraph,
      events := [CaptureEvent.beginCapture, CaptureEvent.callbackInvoked,
                 CaptureEvent.endCapture],
      finalStatus := StreamCaptureStatus.idle }

/-- Model of `tsl::StatusOr<OwnedCudaGraphExec>`. -/
inductive StatusOrExec where
  | ok (exec : OwnedCudaGraphExec)
  | error (status : TslStatus)
deriving DecidableEq, Repr

/-- Model of `InstantiateCudaGraph` (CUDA 12 branch): `err` is the result
of `cudaGraphInstantiate`, `lastErr` the value `cudaGetLastError` reports
on the out-of-memory path, and `execRes` the native executable resource
produced on success. On failure the registry state `s` is untouched; on
success `NotifyGraphExecCreated` assigns the identity and the fresh handle
starts with both per-handle counters at zero (the handle constructor lives
in the header of the source file). -/
def InstantiateCudaGraph (err lastErr : CudaError) (execRes : Nat)
    (s : CudaGraphSupportState) : StatusOrExec × CudaGraphSupportState :=
  if err ≠ CudaError.success then
    if err = CudaError.errorMemoryAllocation then
      (StatusOrExec.error (TslStatus.resourceExhausted
         ("graph instantiation failed: " ++ cudaGetErrorString lastErr)), s)
    else
      (StatusOrExec.error (TslStatus.internal
         ("graph instantiation failed: " ++ cudaGetErrorString err)), s)
  else
    let r := NotifyGraphExecCreated s
    (StatusOrExec.ok
       { exec := some execRes, id := r.1, numLaunches := 0, numUpdates := 0 },
     r.2)

/-- One registry-affecting lifecycle event: a successful instantiation or
the destruction of a non-moved-from executable handle. -/
inductive RegOp where
  | create
  | destroy
deriving DecidableEq, Repr

/-- Effect of one lifecycle event on the registry counters. -/
def applyRegOp (s : CudaGraphSupportState) : RegOp → CudaGraphSupportState
  | RegOp.create => (NotifyGraphExecCreated s).2
  | RegOp.destroy => (NotifyGraphExecDestroyed s).2

/-- Run a sequence of lifecycle events on the registry. -/
def runRegOps (s : CudaGraphSupportState) : List RegOp → CudaGraphSupportState
  | [] => s
  | op :: t => runRegOps (applyRegOp s op) t

/-- Number of instantiations in a sequence of lifecycle events. -/
def countCreates : List RegOp → Nat
  | [] => 0
  | RegOp.create :: t => countCreates t + 1
  | RegOp.destroy :: t => countCreates t

/-- Number of destructions in a sequence of lifecycle events. -/
def countDestroys : List RegOp → Nat
  | [] => 0
  | RegOp.create :: t => countDestroys t
  | RegOp.destroy :: t => countDestroys t + 1

/-- A sequence of lifecycle events is realizable from a state with `b`
alive handles when every destruction destroys a handle that was actually
created and still alive: each destroy happens with a positive alive
count. -/
def validFrom (b : Nat) : List RegOp → Bool
  | [] => true
  | RegOp.create :: t => validFrom (b + 1) t
  | RegOp.destroy :: t => decide (0 < b) && validFrom (b - 1) t

/-- Identities assigned by `n` consecutive `NotifyGraphExecCreated` calls
starting from registry state `s`, in call order. -/
def createSeqIds : Nat → CudaGraphSupportState → List Nat
  | 0, _ => []
  | n + 1, s =>
    let r := NotifyGraphExecCreated s
    r.1 :: createSeqIds n r.2

/-- Signedness semantics of an MLIR builtin integer type;
`IntegerType::get` with no semantics argument yields `signless`. -/
inductive SignednessSemantics where
  | signless
  | signedInt
  | unsignedInt
deriving DecidableEq, Repr

/-- Model of the MLIR types the legalization pass distinguishes: the five
TF quantized element types, builtin integer types, shaped types (a shape
plus an element type), and every other type collapsed to an opaque name. -/
inductive MlirType where
  | qint8
  | qint16
  | qint32
  | quint8
  | quint16
  | integer (width : Nat) (sig : SignednessSemantics)
  | shaped (shape : List Int) (elem : MlirType)
  | otherType (name : String)
deriving DecidableEq, Repr

/-- Model of `mlir::getElementTypeOrSelf`: the element type of a shaped
type, the type itself otherwise (one level, as in the source). -/
def getElementTypeOrSelf : MlirType → MlirType
  | MlirType.shaped _ e => e
  | t => t

/-- Model of `IsIllegalElementType`: exactly the five quantized types. -/
def IsIllegalElementType : MlirType → Bool
  | MlirType.qint8 => true
  | MlirType.qint16 => true
  | MlirType.qint32 => true
  | MlirType.quint8 => true
  | MlirType.quint16 => true
  | _ => false

/-- Model of `ToLegalElementType`: the `TypeSwitch` mapping each quantized
type to a builtin integer type (`IntegerType::get` defaults to signless;
the unsigned quantized types request unsigned semantics explicitly), and
the identity on every other type. -/
def ToLegalElementType : MlirType → MlirType
  | MlirType.qint8 => MlirType.integer 8 SignednessSemantics.signless
  | MlirType.qint16 => MlirType.integer 16 SignednessSemantics.signless
  | MlirType.qint32 => MlirType.integer 32 SignednessSemantics.signless
  | MlirType.quint8 => MlirType.integer 8 SignednessSemantics.unsignedInt
  | MlirType.quint16 => MlirType.integer 16 SignednessSemantics.unsignedInt
  | t => t

/-- Model of `IsIllegalType`. -/
def IsIllegalType (t : MlirType) : Bool :=
  IsIllegalElementType (getElementTypeOrSelf t)

/-- Model of `ToLegalType`: an illegal element type is legalized directly;
a shaped type whose element type is illegal is cloned with the legalized
element type (`ShapedType::clone` keeps the shape); everything else is
returned unchanged. -/
def ToLegalType : MlirType → MlirType
  | MlirType.shaped sh elem =>
    if IsIllegalElementType (MlirType.shaped sh elem) then
      ToLegalElementType (MlirType.shaped sh elem)
    else if IsIllegalType elem then MlirType.shaped sh (ToLegalType elem)
    else MlirType.shaped sh elem
  | t => if IsIllegalElementType t then ToLegalElementType t else t

/-! Helper lemmas shared by the claim theorems below. -/

theorem countCreates_append (p q : List RegOp) :
    countCreates (p ++ q) = countCreates p + countCreates q := by
  induction p with
  | nil => simp [countCreates]
  | cons op t ih => cases op <;> (simp [countCreates, ih]; try omega)

theorem countDestroys_append (p q : List RegOp) :
    countDestroys (p ++ q) = countDestroys p + countDestroys q := by
  induction p with
  | nil => simp [countDestroys]
  | cons op t ih => cases op <;> (simp [countDestroys, ih]; try omega)

theorem validFrom_append_left (p : List RegOp) : ∀ (q : List RegOp) (b : Nat),
    validFrom b (p ++ q) = true → validFrom b p = true := by
  induction p with
  | nil => intro q b _; rfl
  | cons op t ih =>
    intro q b h
    cases op with
    | create => exact ih q (b + 1) h
    | destroy =>
      simp only [List.cons_append, validFrom, Bool.and_eq_true,
        decide_eq_true_eq] at h ⊢
      exact ⟨h.1, ih q (b - 1) h.2⟩

theorem sizeTMod_pos : 0 < sizeTMod := by decide

theorem runRegOps_spec : ∀ (l : List RegOp) (a b : Nat),
    validFrom b l = true → a + countCreates l < sizeTMod →
    b + countCreates l < sizeTMod →
    (runRegOps ⟨a, b⟩ l).allocated = a + countCreates l ∧
    (runRegOps ⟨a, b⟩ l).alive = b + countCreates l - countDestroys l := by
  intro l
  induction l with
  | nil => intro a b _ _ _; simp [runRegOps, countCreates, countDestroys]
  | cons op t ih =>
    intro a b hv ha hb
    cases op with
    | create =>
      have hc : countCreates (RegOp.create :: t) = countCreates t + 1 := rfl
      have hd : countDestroys (RegOp.create :: t) = countDestroys t := rfl
      rw [hc] at ha hb
      have ha1 : (a + 1) % sizeTMod = a + 1 := Nat.mod_eq_of_lt (by omega)
      have hb1 : (b + 1) % sizeTMod = b + 1 := Nat.mod_eq_of_lt (by omega)
      have hrun : runRegOps ⟨a, b⟩ (RegOp.create :: t) =
          runRegOps ⟨a + 1, b + 1⟩ t := by
        simp [runRegOps, applyRegOp, NotifyGraphExecCreated, ha1, hb1]
      have hv1 : validFrom (b + 1) t = true := hv
      have hres := ih (a + 1) (b + 1) hv1 (by omega) (by omega)
      rw [hrun, hc, hd]
      exact ⟨by rw [hres.1]; omega, by rw [hres.2]; omega⟩
    | destroy =>
      have hsplit : 0 < b ∧ validFrom (b - 1) t = true := by
        simpa [validFrom] using hv
      have hc : countCreates (RegOp.destroy :: t) = countCreates t := rfl
      have hd : countDestroys (RegOp.destroy :: t) = countDestroys t + 1 := rfl
      rw [hc] at ha hb
      have hb0 : 0 < b := hsplit.1
      have hbw : b - 1 < sizeTMod := by omega
      have hmod : (b + (sizeTMod - 1)) % sizeTMod = b - 1 := by
        have h1 : b + (sizeTMod - 1) = (b - 1) + 1 * sizeTMod := by
          have := sizeTMod_pos; omega
        rw [h1, Nat.add_mul_mod_self_right]
        exact Nat.mod_eq_of_lt hbw
      have hrun : runRegOps ⟨a, b⟩ (RegOp.destroy :: t) =
          runRegOps ⟨a, b - 1⟩ t := by
        simp [runRegOps, applyRegOp, NotifyGraphExecDestroyed, hmod]
      have hres := ih a (b - 1) hsplit.2 (by omega) (by omega)
      rw [hrun, hc, hd]
      exact ⟨by rw [hres.1], by rw [hres.2]; omega⟩

theorem createSeqIds_spec : ∀ (n a b : Nat), a + n < sizeTMod →
    createSeqIds n ⟨a, b⟩ = List.range' a n := by
  intro n
  induction n with
  | zero => intro a b _; rfl
  | succ m ih =>
    intro a b h
    have ha1 : (a + 1) % sizeTMod = a + 1 := Nat.mod_eq_of_lt (by omega)
    rw [List.range'_succ]
    simp only [createSeqIds, NotifyGraphExecCreated, ha1, List.cons.injEq,
      true_and]
    exact ih (a + 1) ((b + 1) % sizeTMod) (by omega)

theorem isIllegalType_of_elementType (e : MlirType)
    (h : IsIllegalElementType e = true) : IsIllegalType e = true := by
  cases e <;> first
    | rfl
    | simp [IsIllegalElementType] at h

theorem isIllegalElementType_toLegalType (e : MlirType) :
    IsIllegalElementType (ToLegalType e) = false := by
  cases e with
  | shaped sh el =>
    simp only [ToLegalType]
    split
    · next hshaped => simp [IsIllegalElementType] at hshaped
    · split <;> rfl
  | _ => rfl

theorem isIllegalType_toLegalType (t : MlirType) :
    IsIllegalType (ToLegalType t) = false := by
  cases t with
  | shaped sh el =>
    simp only [ToLegalType]
    split
    · next hshaped => simp [IsIllegalElementType] at hshaped
    · split
      · next hel =>
        simp only [IsIllegalType, getElementTypeOrSelf]
        exact isIllegalElementType_toLegalType el
      · next hel =>
        simp only [IsIllegalType, getElementTypeOrSelf]
        cases hil : IsIllegalElementType el
        · rfl
        · exact absurd (isIllegalType_of_elementType el hil) (by simpa using hel)
  | _ => rfl

theorem toLegalType_idem (t : MlirType) :
    ToLegalType (ToLegalType t) = ToLegalType t := by
  cases t with
  | shaped sh el =>
    by_cases hel : IsIllegalType el = true
    · have h1 : ToLegalType (MlirType.shaped sh el) =
          MlirType.shaped sh (ToLegalType el) := by
        simp [ToLegalType, IsIllegalElementType, hel]
      rw [h1]
      simp [ToLegalType, IsIllegalElementType, isIllegalType_toLegalType el]
    · have h1 : ToLegalType (MlirType.shaped sh el) = MlirType.shaped sh el := by
        simp [ToLegalType, IsIllegalElementType, hel]
      rw [h1, h1]
  | _ => rfl

/-! Claim theorems. -/

/-- C8: if begin-capture fails, `CaptureCudaGraph` returns the fatal
internal begin-capture error immediately and performs no further steps:
the capture callback is never invoked, end-capture is not attempted, and
no Graph Handle is produced. -/
theorem cuda_C8_begin_capture_failure (env : CaptureEnv)
    (h : env.beginErr ≠ CudaError.success) :
    (CaptureCudaGraph env).result = StatusOrGraph.error (TslStatus.internal
      ("stream begin capture failed: " ++ cudaGetErrorString env.beginErr)) ∧
    (CaptureCudaGraph env).events = [CaptureEvent.beginCapture] ∧
    CaptureEvent.callbackInvoked ∉ (CaptureCudaGraph env).events ∧
    CaptureEvent.endCapture ∉ (CaptureCudaGraph env).events ∧
    ∀ g, (CaptureCudaGraph env).result ≠ StatusOrGraph.ok g := by
  simp [CaptureCudaGraph, h]

/-- Witness for C8 at a concrete environment whose begin-capture fails. -/
theorem cuda_C8_begin_capture_failure_witness :
    (CaptureCudaGraph ⟨CudaError.other 1, TslStatus.ok,
        CudaError.success, 0⟩).events = [CaptureEvent.beginCapture] :=
  (cuda_C8_begin_capture_failure
    ⟨CudaError.other 1, TslStatus.ok, CudaError.success, 0⟩ (by decide)).2.1

/-- C1 counterexample: begin-capture succeeds and the callback fails, but
end-capture also fails; the call then returns the end-capture internal
error, not the callback failure wrapped as a capture-abort error, so the
claim that every such call returns the wrapped callback failure is false
at this input. -/
theorem cuda_C1_counterexample :
    (CaptureCudaGraph ⟨CudaError.success, TslStatus.internal ("enqueue failed"),
        CudaError.other 2, 7⟩).result
      = StatusOrGraph.error (TslStatus.internal
          ("stream end capture failed: " ++
            cudaGetErrorString (CudaError.other 2))) ∧
    (CaptureCudaGraph ⟨CudaError.success, TslStatus.internal ("enqueue failed"),
        CudaError.other 2, 7⟩).result
      ≠ StatusOrGraph.error (TslStatus.internal
          ("failed to capture CUDA graph: " ++
            (TslStatus.internal ("enqueue failed")).message)) := by
  exact ⟨rfl, by decide⟩

/-- C1 amended: when begin-capture succeeds and the callback fails,
end-capture is still performed before the callback result is checked, the
stream ends Idle, and no Graph Handle is produced; the returned error is
the callback failure wrapped as a capture-abort internal error when
end-capture succeeds, and the end-capture internal error when end-capture
also fails. -/
theorem cuda_C1_capture_abort (env : CaptureEnv)
    (hbegin : env.beginErr = CudaError.success)
    (hcb : env.callbackStatus.isOk = false) :
    CaptureEvent.endCapture ∈ (CaptureCudaGraph env).events ∧
    (CaptureCudaGraph env).finalStatus = StreamCaptureStatus.idle ∧
    (∀ g, (CaptureCudaGraph env).result ≠ StatusOrGraph.ok g) ∧
    (env.endErr = CudaError.success →
      (CaptureCudaGraph env).result = StatusOrGraph.error (TslStatus.internal
        ("failed to capture CUDA graph: " ++ env.callbackStatus.message))) ∧
    (env.endErr ≠ CudaError.success →
      (CaptureCudaGraph env).result = StatusOrGraph.error (TslStatus.internal
        ("stream end capture failed: " ++ cudaGetErrorString env.endErr))) := by
  by_cases hend : env.endErr = CudaError.success
  · simp [CaptureCudaGraph, hbegin, hend, hcb]
  · simp [CaptureCudaGraph, hbegin, hend, hcb]

/-- Witness for the amended C1 at a concrete environment where the
callback fails and end-capture succeeds. -/
theorem cuda_C1_capture_abort_witness :
    (CaptureCudaGraph ⟨CudaError.success, TslStatus.internal ("enqueue failed"),
        CudaError.success, 7⟩).result
      = StatusOrGraph.error (TslStatus.internal
          ("failed to capture CUDA graph: " ++
            (TslStatus.internal ("enqueue failed")).message)) :=
  (cuda_C1_capture_abort
    ⟨CudaError.success, TslStatus.internal ("enqueue failed"),
      CudaError.success, 7⟩ rfl rfl).2.2.2.1 rfl

/-- C9: a failed native destroy inside a release action aborts the process
with a fatal assertion carrying the driver error message; it is never
silently treated as a completed release. -/
theorem cuda_C9_destroy_check (err : CudaError)
    (h : err ≠ CudaError.success) :
    DestroyGraph err = DestroyOutcome.fatalAbort
      ("Failed to destroy CUDA graph: " ++ cudaGetErrorString err) ∧
    DestroyGraphExec err = DestroyOutcome.fatalAbort
      ("Failed to destroy CUDA graph instance: " ++ cudaGetErrorString err) ∧
    DestroyGraph err ≠ DestroyOutcome.completed ∧
    DestroyGraphExec err ≠ DestroyOutcome.completed := by
  simp [DestroyGraph, DestroyGraphExec, h]

/-- Witness for C9 at a concrete failing destroy. -/
theorem cuda_C9_destroy_check_witness :
    DestroyGraph (CudaError.other 7) = DestroyOutcome.fatalAbort
      ("Failed to destroy CUDA graph: " ++
        cudaGetErrorString (CudaError.other 7)) ∧
    DestroyGraphExec (CudaError.other 7) ≠ DestroyOutcome.completed :=
  ⟨(cuda_C9_destroy_check (CudaError.other 7) (by decide)).1,
   (cuda_C9_destroy_check (CudaError.other 7) (by decide)).2.2.2⟩

/-- C4: a native instantiation failure with the allocation-exhaustion code
yields a recoverable resource-exhaustion error, every other native failure
yields a fatal internal error (the two error variants are distinct
constructors), and on any failure no Executable Handle is produced and the
registry counters are untouched. -/
theorem cuda_C4_instantiate_classification (err lastErr : CudaError)
    (execRes : Nat) (s : CudaGraphSupportState)
    (h : err ≠ CudaError.success) :
    (err = CudaError.errorMemoryAllocation →
      (InstantiateCudaGraph err lastErr execRes s).1 = StatusOrExec.error
        (TslStatus.resourceExhausted
          ("graph instantiation failed: " ++ cudaGetErrorString lastErr))) ∧
    (err ≠ CudaError.errorMemoryAllocation →
      (InstantiateCudaGraph err lastErr execRes s).1 = StatusOrExec.error
        (TslStatus.internal
          ("graph instantiation failed: " ++ cudaGetErrorString err))) ∧
    (∀ m1 m2, TslStatus.resourceExhausted m1 ≠ TslStatus.internal m2) ∧
    (InstantiateCudaGraph err lastErr execRes s).2 = s ∧
    (∀ e, (InstantiateCudaGraph err lastErr execRes s).1 ≠
      StatusOrExec.ok e) := by
  by_cases hm : err = CudaError.errorMemoryAllocation
  · simp [InstantiateCudaGraph, h, hm]
  · simp [InstantiateCudaGraph, h, hm]

/-- Witness for C4: the allocation-exhaustion code and a generic driver
failure produce the two distinct error variants, with no registry
mutation. -/
theorem cuda_C4_instantiate_classification_witness :
    (InstantiateCudaGraph CudaError.errorMemoryAllocation
        (CudaError.other 3) 0 ⟨4, 2⟩).1 = StatusOrExec.error
      (TslStatus.resourceExhausted
        ("graph instantiation failed: " ++
          cudaGetErrorString (CudaError.other 3))) ∧
    (InstantiateCudaGraph (CudaError.other 5) CudaError.success 0 ⟨4, 2⟩).1
      = StatusOrExec.error (TslStatus.internal
        ("graph instantiation failed: " ++
          cudaGetErrorString (CudaError.other 5))) ∧
    (InstantiateCudaGraph (CudaError.other 5) CudaError.success 0 ⟨4, 2⟩).2
      = ⟨4, 2⟩ :=
  ⟨(cuda_C4_instantiate_classification CudaError.errorMemoryAllocation
      (CudaError.other 3) 0 ⟨4, 2⟩ (by decide)).1 rfl,
   (cuda_C4_instantiate_classification (CudaError.other 5)
      CudaError.success 0 ⟨4, 2⟩ (by decide)).2.1 (by decide),
   (cuda_C4_instantiate_classification (CudaError.other 5)
      CudaError.success 0 ⟨4, 2⟩ (by decide)).2.2.2.1⟩

/-- C2 counterexample: a failed native launch on a fresh handle returns an
error, yet the launch counter has changed from 0 to 1, because the source
increments `num_launches_` in the entry log statement before the native
launch; the claim that a failed launch leaves the counter unchanged is
false at this input. -/
theorem cuda_C2_counterexample :
    (OwnedCudaGraphExec.launch ⟨some 1, 0, 0, 0⟩ (CudaError.other 1)).1
      ≠ TslStatus.ok ∧
    (OwnedCudaGraphExec.launch ⟨some 1, 0, 0, 0⟩
      (CudaError.other 1)).2.numLaunches ≠ 0 := by
  decide

/-- C2 amended: every launch call increments the launch counter by exactly
1, before the native launch and regardless of its outcome; the call
returns OK exactly when the native launch succeeds and the internal launch
error otherwise; three launch calls from any handle leave the counter at
its initial value plus 3. -/
theorem cuda_C2_launch_counting (e : OwnedCudaGraphExec) (err : CudaError) :
    (e.launch err).2.numLaunches = e.numLaunches + 1 ∧
    (e.launch err).2.numUpdates = e.numUpdates ∧
    (e.launch err).2.id = e.id ∧
    (e.launch err).2.exec = e.exec ∧
    (err = CudaError.success → (e.launch err).1 = TslStatus.ok) ∧
    (err ≠ CudaError.success → (e.launch err).1 = TslStatus.internal
      ("failed to run cuda graph: " ++ cudaGetErrorString err)) ∧
    (((e.launch CudaError.success).2.launch CudaError.success).2.launch
        CudaError.success).2.numLaunches = e.numLaunches + 3 := by
  by_cases h : err = CudaError.success
  · simp [OwnedCudaGraphExec.launch, h]
  · simp [OwnedCudaGraphExec.launch, h]

/-- Witness for the amended C2: a concrete successful launch and the
three-launch count. -/
theorem cuda_C2_launch_counting_witness :
    (OwnedCudaGraphExec.launch ⟨some 1, 0, 0, 0⟩ CudaError.success).1
      = TslStatus.ok ∧
    (((OwnedCudaGraphExec.launch ⟨some 1, 0, 0, 0⟩ CudaError.success).2.launch
        CudaError.success).2.launch CudaError.success).2.numLaunches = 3 :=
  ⟨(cuda_C2_launch_counting ⟨some 1, 0, 0, 0⟩ CudaError.success).2.2.2.2.1 rfl,
   (cuda_C2_launch_counting ⟨some 1, 0, 0, 0⟩ CudaError.success).2.2.2.2.2.2⟩

/-- C3 counterexample: a failed native update on a handle with launch
counter 5 returns an error, yet the launch counter has been reset to 0 and
the update counter incremented, because both changes happen at entry
before the native update call; the claim that a failed update modifies
neither counter is false at this input. -/
theorem cuda_C3_counterexample :
    (OwnedCudaGraphExec.update ⟨some 1, 0, 5, 0⟩ (CudaError.other 1)
      CudaGraphExecUpdateResult.success).1 ≠ TslStatus.ok ∧
    (OwnedCudaGraphExec.update ⟨some 1, 0, 5, 0⟩ (CudaError.other 1)
      CudaGraphExecUpdateResult.success).2.numLaunches ≠ 5 ∧
    (OwnedCudaGraphExec.update ⟨some 1, 0, 5, 0⟩ (CudaError.other 1)
      CudaGraphExecUpdateResult.success).2.numUpdates ≠ 0 := by
  decide

/-- C3 amended: every update call resets the launch counter to 0 and
increments the update counter by exactly 1 at entry, before the native
update and regardless of its outcome; the call returns OK exactly when the
native update reports success and the internal update error otherwise. -/
theorem cuda_C3_update_counting (e : OwnedCudaGraphExec) (err : CudaError)
    (updated : CudaGraphExecUpdateResult) :
    (e.update err updated).2.numLaunches = 0 ∧
    (e.update err updated).2.numUpdates = e.numUpdates + 1 ∧
    (e.update err updated).2.id = e.id ∧
    (e.update err updated).2.exec = e.exec ∧
    (err = CudaError.success ∧ updated = CudaGraphExecUpdateResult.success →
      (e.update err updated).1 = TslStatus.ok) ∧
    (err ≠ CudaError.success ∨ updated ≠ CudaGraphExecUpdateResult.success →
      (e.update err updated).1 = TslStatus.internal
        ("failed to update cuda graph: " ++ cudaGetErrorString err)) := by
  have hs : (e.update err updated).2 =
      { e with numLaunches := 0, numUpdates := e.numUpdates + 1 } := by
    simp only [OwnedCudaGraphExec.update]
    split <;> rfl
  refine ⟨by rw [hs], by rw [hs], by rw [hs], by rw [hs],
    fun hok => ?_, fun hfail => ?_⟩
  · simp [OwnedCudaGraphExec.update, hok.1, hok.2]
  · simp only [OwnedCudaGraphExec.update, if_pos hfail]

/-- Witness for the amended C3: a concrete successful update resets the
launch counter from 5 to 0 and bumps the update counter to 1. -/
theorem cuda_C3_update_counting_witness :
    (OwnedCudaGraphExec.update ⟨some 1, 0, 5, 0⟩ CudaError.success
      CudaGraphExecUpdateResult.success).1 = TslStatus.ok ∧
    (OwnedCudaGraphExec.update ⟨some 1, 0, 5, 0⟩ CudaError.success
      CudaGraphExecUpdateResult.success).2.numLaunches = 0 ∧
    (OwnedCudaGraphExec.update ⟨some 1, 0, 5, 0⟩ CudaError.success
      CudaGraphExecUpdateResult.success).2.numUpdates = 1 :=
  ⟨(cuda_C3_update_counting ⟨some 1, 0, 5, 0⟩ CudaError.success
      CudaGraphExecUpdateResult.success).2.2.2.2.1 ⟨rfl, rfl⟩,
   (cuda_C3_update_counting ⟨some 1, 0, 5, 0⟩ CudaError.success
      CudaGraphExecUpdateResult.success).1,
   (cuda_C3_update_counting ⟨some 1, 0, 5, 0⟩ CudaError.success
      CudaGraphExecUpdateResult.success).2.1⟩

/-- C7: destroying a moved-from handle releases nothing: a moved-from
Graph Handle never invokes the native graph-destroy action, a moved-from
Executable Handle never calls `NotifyGraphExecDestroyed` (the registry is
unchanged), and a non-moved-from Executable Handle destructor calls
`NotifyGraphExecDestroyed` exactly once. -/
theorem cuda_C7_moved_from (g : OwnedCudaGraph) (e : OwnedCudaGraphExec)
    (s : CudaGraphSupportState) :
    OwnedCudaGraph.dtorDestroyCalls (g.moveOut).2 = 0 ∧
    OwnedCudaGraphExec.dtor (e.moveOut).2 s = (s, 0) ∧
    (e.exec = none → e.dtor s = (s, 0)) ∧
    (∀ x, e.exec = some x →
      (e.dtor s).2 = 1 ∧ (e.dtor s).1 = (NotifyGraphExecDestroyed s).2) := by
  refine ⟨rfl, rfl, fun h => ?_, fun x h => ?_⟩
  · simp [OwnedCudaGraphExec.dtor, h]
  · simp [OwnedCudaGraphExec.dtor, h]

/-- Witness for C7 at a concrete moved-from and non-moved-from handle. -/
theorem cuda_C7_moved_from_witness :
    OwnedCudaGraphExec.dtor
      ((OwnedCudaGraphExec.moveOut ⟨some 3, 1, 0, 0⟩).2) ⟨5, 4⟩ = (⟨5, 4⟩, 0) ∧
    (OwnedCudaGraphExec.dtor ⟨some 3, 1, 0, 0⟩ ⟨5, 4⟩).2 = 1 :=
  ⟨(cuda_C7_moved_from ⟨none⟩ ⟨some 3, 1, 0, 0⟩ ⟨5, 4⟩).2.1,
   ((cuda_C7_moved_from ⟨none⟩ ⟨some 3, 1, 0, 0⟩ ⟨5, 4⟩).2.2.2 3 rfl).1⟩

/-- C5: `NotifyGraphExecCreated` increments both counters (each by one
indivisible read-modify-write) and returns the pre-increment `allocated`
value as the assigned identity, so the identities assigned by successive
calls from process start are exactly 0, 1, 2, ... — pairwise distinct and
strictly increasing in call order; `NotifyGraphExecDestroyed` decrements
`alive` and returns the post-decrement value. The bounds keep the
realizable executions below the 64-bit wraparound of the counters. -/
theorem cuda_C5_registry_notify :
    (∀ s : CudaGraphSupportState,
      s.allocated + 1 < sizeTMod → s.alive + 1 < sizeTMod →
      (NotifyGraphExecCreated s).1 = s.allocated ∧
      (NotifyGraphExecCreated s).2.allocated = s.allocated + 1 ∧
      (NotifyGraphExecCreated s).2.alive = s.alive + 1) ∧
    (∀ s : CudaGraphSupportState, 0 < s.alive → s.alive < sizeTMod →
      (NotifyGraphExecDestroyed s).1 = s.alive - 1 ∧
      (NotifyGraphExecDestroyed s).2.alive = s.alive - 1 ∧
      (NotifyGraphExecDestroyed s).2.allocated = s.allocated) ∧
    (∀ n : Nat, n < sizeTMod →
      createSeqIds n initialSupport = List.range n ∧
      List.Pairwise (· < ·) (createSeqIds n initialSupport)) := by
  refine ⟨fun s h1 h2 => ?_, fun s h1 h2 => ?_, fun n hn => ?_⟩
  · simp [NotifyGraphExecCreated, Nat.mod_eq_of_lt h1, Nat.mod_eq_of_lt h2]
  · have hmod : (s.alive + (sizeTMod - 1)) % sizeTMod = s.alive - 1 := by
      have hp := sizeTMod_pos
      have h3 : s.alive + (sizeTMod - 1) = (s.alive - 1) + 1 * sizeTMod := by
        omega
      rw [h3, Nat.add_mul_mod_self_right]
      exact Nat.mod_eq_of_lt (by omega)
    simp [NotifyGraphExecDestroyed, hmod]
  · have h := createSeqIds_spec n 0 0 (by omega)
    have h2 : createSeqIds n initialSupport = List.range n := by
      rw [List.range_eq_range' n]
      simpa [initialSupport] using h
    exact ⟨h2, by rw [h2]; exact List.pairwise_lt_range n⟩

/-- Witness for C5 at a concrete registry state and a concrete run of
three creations from process start. -/
theorem cuda_C5_registry_notify_witness :
    (NotifyGraphExecCreated ⟨4, 2⟩).1 = 4 ∧
    (NotifyGraphExecCreated ⟨4, 2⟩).2.allocated = 5 ∧
    (NotifyGraphExecCreated ⟨4, 2⟩).2.alive = 3 ∧
    (NotifyGraphExecDestroyed ⟨4, 2⟩).1 = 1 ∧
    createSeqIds 3 initialSupport = List.range 3 := by
  have h1 := cuda_C5_registry_notify.1 ⟨4, 2⟩ (by decide) (by decide)
  have h2 := cuda_C5_registry_notify.2.1 ⟨4, 2⟩ (by decide) (by decide)
  have h3 := (cuda_C5_registry_notify.2.2 3 (by decide)).1
  exact ⟨h1.1, h1.2.1, h1.2.2, h2.1, h3⟩

/-- C6: for every realizable interleaving of N successful instantiations
and M destructions of non-moved-from Executable Handles (each destruction
destroys a previously created, still-alive handle, so M ≤ N), the final
registry reads AllocatedCount = N and AliveCount = N − M; at every
intermediate state `allocated ≥ alive` holds (`alive ≥ 0` holds since the
counters are naturals), and `allocated` never decreases from one step to
the next. The bound keeps N below the 64-bit counter wraparound. -/
theorem cuda_C6_registry_accounting (ops : List RegOp)
    (hvalid : validFrom 0 ops = true)
    (hbound : countCreates ops < sizeTMod) :
    allocated_cuda_graph_execs (runRegOps initialSupport ops)
      = countCreates ops ∧
    alive_cuda_graph_execs (runRegOps initialSupport ops)
      = countCreates ops - countDestroys ops ∧
    (∀ p q, p ++ q = ops →
      alive_cuda_graph_execs (runRegOps initialSupport p) ≤
        allocated_cuda_graph_execs (runRegOps initialSupport p)) ∧
    (∀ p op q, p ++ op :: q = ops →
      allocated_cuda_graph_execs (runRegOps initialSupport p) ≤
        allocated_cuda_graph_execs (runRegOps initialSupport (p ++ [op]))) := by
  have hmain := runRegOps_spec ops 0 0 hvalid (by omega) (by omega)
  refine ⟨?_, ?_, ?_, ?_⟩
  · simpa [initialSupport, allocated_cuda_graph_execs] using hmain.1
  · simpa [initialSupport, alive_cuda_graph_execs] using hmain.2
  · intro p q hpq
    have hv : validFrom 0 p = true :=
      validFrom_append_left p q 0 (by rw [hpq]; exact hvalid)
    have hb : countCreates p ≤ countCreates ops := by
      rw [← hpq, countCreates_append]; omega
    have hp := runRegOps_spec p 0 0 hv (by omega) (by omega)
    simp only [initialSupport, allocated_cuda_graph_execs,
      alive_cuda_graph_execs]
    rw [hp.1, hp.2]; omega
  · intro p op q hpq
    have hassoc : (p ++ [op]) ++ q = ops := by rw [← hpq]; simp
    have hv1 : validFrom 0 (p ++ [op]) = true :=
      validFrom_append_left (p ++ [op]) q 0 (by rw [hassoc]; exact hvalid)
    have hv0 : validFrom 0 p = true := validFrom_append_left p [op] 0 hv1
    have hb1 : countCreates (p ++ [op]) ≤ countCreates ops := by
      rw [← hassoc]
      simp only [countCreates_append]
      omega
    have hb0 : countCreates p ≤ countCreates (p ++ [op]) := by
      rw [countCreates_append]; omega
    have hp0 := runRegOps_spec p 0 0 hv0 (by omega) (by omega)
    have hp1 := runRegOps_spec (p ++ [op]) 0 0 hv1 (by omega) (by omega)
    simp only [initialSupport, allocated_cuda_graph_execs]
    rw [hp0.1, hp1.1]; omega

/-- Witness for C6: three creations and two interleaved destructions end
with AllocatedCount 3 and AliveCount 1. -/
theorem cuda_C6_registry_accounting_witness :
    allocated_cuda_graph_execs (runRegOps initialSupport
      [RegOp.create, RegOp.create, RegOp.destroy, RegOp.create,
        RegOp.destroy]) = 3 ∧
    alive_cuda_graph_execs (runRegOps initialSupport
      [RegOp.create, RegOp.create, RegOp.destroy, RegOp.create,
        RegOp.destroy]) = 1 := by
  have h := cuda_C6_registry_accounting
    [RegOp.create, RegOp.create, RegOp.destroy, RegOp.create, RegOp.destroy]
    (by decide) (by decide)
  exact ⟨h.1.trans (by decide), h.2.1.trans (by decide)⟩

/-- C10: `ToLegalType` maps each of the five quantized element types to a
builtin integer type of the same bit width — the unsigned quantized types
to unsigned integers, the signed quantized types to the default signless
integers that MLIR uses to represent signed values; it rewrites a shaped
type whose element type is illegal by converting only the element type
while preserving the shape; it is the identity on every other type; it is
idempotent; and `IsIllegalType (ToLegalType t)` is false for every t. -/
theorem mlir_C10_type_legalization :
    (ToLegalType MlirType.qint8
      = MlirType.integer 8 SignednessSemantics.signless) ∧
    (ToLegalType MlirType.qint16
      = MlirType.integer 16 SignednessSemantics.signless) ∧
    (ToLegalType MlirType.qint32
      = MlirType.integer 32 SignednessSemantics.signless) ∧
    (ToLegalType MlirType.quint8
      = MlirType.integer 8 SignednessSemantics.unsignedInt) ∧
    (ToLegalType MlirType.quint16
      = MlirType.integer 16 SignednessSemantics.unsignedInt) ∧
    (∀ sh elem, IsIllegalType elem = true →
      ToLegalType (MlirType.shaped sh elem)
        = MlirType.shaped sh (ToLegalType elem)) ∧
    (∀ t, IsIllegalElementType t = false →
      (∀ sh e, t = MlirType.shaped sh e → IsIllegalType e = false) →
      ToLegalType t = t) ∧
    (∀ t, ToLegalType (ToLegalType t) = ToLegalType t) ∧
    (∀ t, IsIllegalType (ToLegalType t) = false) := by
  refine ⟨rfl, rfl, rfl, rfl, rfl, ?_, ?_, toLegalType_idem,
    isIllegalType_toLegalType⟩
  · intro sh elem h
    simp [ToLegalType, IsIllegalElementType, h]
  · intro t h1 h2
    cases t with
    | qint8 => simp [IsIllegalElementType] at h1
    | qint16 => simp [IsIllegalElementType] at h1
    | qint32 => simp [IsIllegalElementType] at h1
    | quint8 => simp [IsIllegalElementType] at h1
    | quint16 => simp [IsIllegalElementType] at h1
    | integer w sig => rfl
    | shaped sh e =>
      have he : IsIllegalType e = false := h2 sh e rfl
      simp [ToLegalType, IsIllegalElementType, he]
    | otherType nm => rfl

/-- Witness for C10: a concrete quantized tensor type is rewritten with
its shape preserved, and a concrete legal type is left unchanged. -/
theorem mlir_C10_type_legalization_witness :
    ToLegalType (MlirType.shaped [2, 3] MlirType.qint8)
      = MlirType.shaped [2, 3]
          (MlirType.integer 8 SignednessSemantics.signless) ∧
    ToLegalType (MlirType.integer 32 SignednessSemantics.signless)
      = MlirType.integer 32 SignednessSemantics.signless := by
  refine ⟨?_, ?_⟩
  · have h := mlir_C10_type_legalization.2.2.2.2.2.1 ([2, 3]) MlirType.qint8 rfl
    rw [h, mlir_C10_type_legalization.1]
  · exact mlir_C10_type_legalization.2.2.2.2.2.2.1
      (MlirType.integer 32 SignednessSemantics.signless) rfl
      (fun sh e h => nomatch h)
